import Mathlib

/-!
Formal model of the dlrover torch rendezvous backend
(`dlrover/python/elastic_agent/torch/rdzv_backend.py`).

The backend stores a pickled `RendezvousState` blob in a remote
coordination service under a fully-qualified key and updates it with a
compare-and-swap token protocol.  The embedding below translates the two
operations `get_state` and `set_state` of `DlroverRendezvousBackend`,
the `RendezvousState` data model, and the constructor, directly from the
source.  Remote calls are modelled by a `MasterClient` record of pure
response functions, and the operations are instrumented to also return
the list of remote calls they issue, so that "no write is performed"
style properties are expressible.
-/

namespace DlroverRdzv

/-- Model of `_NodeDesc`: describes a node in the rendezvous, identified by
its address, process id and process-wide local id. -/
structure NodeDesc where
  addr : String
  pid : Int
  local_id : Int
deriving DecidableEq

/-- Model of `RendezvousState`: holds the state of a rendezvous round.
Python `datetime` values are modelled as integer timestamps; the
`participants` and `last_heartbeats` dicts are modelled as association
lists and the `wait_list` set as a list. -/
structure RendezvousState where
  round : Int
  complete : Bool
  deadline : Option Int
  closed : Bool
  participants : List (NodeDesc × Int)
  wait_list : List NodeDesc
  last_heartbeats : List (NodeDesc × Int)
deriving DecidableEq

/-- Model of `RendezvousState.__init__` (source lines 87-94): the freshly
constructed state. -/
def RendezvousState.init : RendezvousState :=
  { round := 0
    complete := false
    deadline := none
    closed := false
    participants := []
    wait_list := []
    last_heartbeats := [] }

/-- A Python value that can appear pickled in this protocol: a string
(the canonical empty marker is the pickle of the empty string, see source
line 135) or a `RendezvousState`. -/
inductive PickleVal
  | str : String → PickleVal
  | rdzvState : RendezvousState → PickleVal
deriving DecidableEq

/-- A byte string: either a valid pickle of some `PickleVal`, or raw
bytes that are not a valid pickle of any value of this protocol. -/
inductive PyBytes
  | pickled : PickleVal → PyBytes
  | raw : String → PyBytes
deriving DecidableEq

/-- Model of `pickle.dumps` restricted to the values this protocol
stores; pickling is deterministic and injective on them. -/
def pickleDumps (v : PickleVal) : PyBytes := .pickled v

/-- Model of `pickle.loads`; `none` models the exception raised on bytes
that are not a valid pickle. -/
def pickleLoads : PyBytes → Option PickleVal
  | .pickled v => some v
  | .raw _ => none

/-- A CAS token as supplied by callers of `set_state`: an integer or a
string (the torch `Token` type is opaque; these are the shapes the code
path distinguishes). -/
inductive Token
  | int : Int → Token
  | str : String → Token
deriving DecidableEq

/-- Python truthiness of a token value, as tested by `if token:` on
source line 152: integer 0 and the empty string are falsy. -/
def Token.truthy : Token → Bool
  | .int n => n != 0
  | .str s => s != ""

/-- Numeric value of a list of decimal digit characters. -/
def digitsVal (cs : List Char) : Nat :=
  cs.foldl (fun a c => a * 10 + (c.toNat - 48)) 0

/-- Drops leading whitespace characters from a character list. -/
def dropSpaces : List Char → List Char
  | [] => []
  | c :: cs => if c.isWhitespace then dropSpaces cs else c :: cs

/-- Strips whitespace from both ends of a character list, as Python
`int` does before parsing. -/
def pyStrip (cs : List Char) : List Char :=
  (dropSpaces (dropSpaces cs).reverse).reverse

/-- Model of Python `int(s)` on a string: optional surrounding
whitespace, an optional sign, then one or more decimal digits; `none`
models the `ValueError` raised otherwise. -/
def parsePyInt (s : String) : Option Int :=
  let cs := pyStrip s.toList
  match cs with
  | [] => none
  | c :: rest =>
    let signed : Int × List Char :=
      if c = '-' then (-1, rest) else if c = '+' then (1, rest) else (1, cs)
    if !signed.2.isEmpty && signed.2.all (fun d => d.isDigit) then
      some (signed.1 * (digitsVal signed.2 : Int))
    else none

/-- Model of source lines 152-158 of `set_state`: a truthy token is
converted with `int(token)` (an integer passes through, a string is
parsed); a falsy or absent token is replaced by the sentinel 0.  The
result `none` models the `ValueError` branch that falls back to a fresh
read. -/
def normalizeToken : Option Token → Option Int
  | none => some 0
  | some (.int n) => some n
  | some (.str s) => if s = "" then some 0 else parsePyInt s

/-- Decidable equality on `Except` results, used to evaluate the model
at concrete inputs. -/
instance exceptDecEq {ε α : Type} [DecidableEq ε] [DecidableEq α] :
    DecidableEq (Except ε α) := fun a b =>
  match a, b with
  | .error e, .error f =>
      if h : e = f then .isTrue (by rw [h]) else .isFalse (by simp [h])
  | .error _, .ok _ => .isFalse (fun hc => Except.noConfusion hc)
  | .ok _, .error _ => .isFalse (fun hc => Except.noConfusion hc)
  | .ok x, .ok y =>
      if h : x = y then .isTrue (by rw [h]) else .isFalse (by simp [h])

/-- An error raised by the underlying RPC channel (`grpc.RpcError`). -/
structure GrpcError where
  message : String
deriving DecidableEq

/-- Exceptions the backend can raise: `RendezvousConnectionError`
wrapping a transport cause, `ValueError` from the constructor, and the
deserialization failure of `pickle.loads` on undecodable bytes. -/
inductive PyError
  | connectionError : String → GrpcError → PyError
  | valueError : String → PyError
  | deserializationError : PyError
deriving DecidableEq

/-- Model of the remote master client used by the backend: each RPC
either answers or fails with a `grpc.RpcError`.  A concrete client is a
pure record of response functions. -/
structure MasterClient where
  get_rdzv_state : String → Except GrpcError (PyBytes × Int)
  set_rdzv_state : String → PyBytes → Int → Nat → Nat → Except GrpcError Bool

/-- Model of `DlroverRendezvousBackend`: the client handle and the
fully-qualified key. -/
structure DlroverRendezvousBackend where
  client : MasterClient
  key : String

/-- Model of `DlroverRendezvousBackend.__init__` (source lines 111-116);
the process-wide `GlobalMasterClient.MASTER_CLIENT` is passed explicitly
as `globalClient`.  The `ValueError` here realizes the spec's
`ConfigurationError`. -/
def DlroverRendezvousBackend.init (globalClient : MasterClient)
    (run_id : String) (pfx : String) : Except PyError DlroverRendezvousBackend :=
  if run_id = "" then
    .error (.valueError "The run id must be a non-empty string.")
  else
    .ok { client := globalClient, key := pfx ++ run_id }

/-- One remote call issued by the backend, recorded for instrumentation:
a read of a key, or a conditional write carrying the key, the raw state
bytes, the integer token, the participant count and the wait-list
count. -/
inductive RemoteCall
  | get : String → RemoteCall
  | set : String → PyBytes → Int → Nat → Nat → RemoteCall
deriving DecidableEq

/-- Model of `get_state` (source lines 123-138), instrumented to also
return the list of remote calls issued.  A transport failure is
re-raised as a connection error wrapping the cause; the pickle of the
empty string is the empty marker meaning no state was recorded;
otherwise the stored bytes are validated with `pickle.loads` (source
line 137) and returned raw together with the token. -/
def DlroverRendezvousBackend.get_stateT (b : DlroverRendezvousBackend) :
    Except PyError (Option (PyBytes × Int)) × List RemoteCall :=
  match b.client.get_rdzv_state b.key with
  | .error exc =>
      (.error (.connectionError
        "The connection to job master has failed.See inner exception for details." exc),
       [.get b.key])
  | .ok result =>
      let new_state_bits := result.1
      let token := result.2
      if new_state_bits = pickleDumps (.str "") then
        (.ok none, [.get b.key])
      else
        match pickleLoads new_state_bits with
        | none => (.error .deserializationError, [.get b.key])
        | some _ => (.ok (some (new_state_bits, token)), [.get b.key])

/-- Result of `get_state` without the instrumentation trace. -/
def DlroverRendezvousBackend.get_state (b : DlroverRendezvousBackend) :
    Except PyError (Option (PyBytes × Int)) :=
  b.get_stateT.1

/-- Model of the inner helper of `set_state` (source lines 145-150): the
result of a fresh read annotated with `succeeded = false`; an absent
state stays `None`. -/
def annotateConflict : Option (PyBytes × Int) → Option (PyBytes × Int × Bool)
  | none => none
  | some r => some (r.1, r.2, false)

/-- Model of `set_state` (source lines 140-181), instrumented to also
return the list of remote calls issued.  The token is normalized first
(an unparseable truthy token falls back to a fresh annotated read
without writing); then the state blob is deserialized to extract the
participant and wait-list counts, the conditional write is issued, a
transport failure is re-raised as a connection error, a failed write
falls back to a fresh annotated read, and a successful write returns
the written bytes, the normalized token and `true`. -/
def DlroverRendezvousBackend.set_stateT (b : DlroverRendezvousBackend)
    (state : PyBytes) (token : Option Token) :
    Except PyError (Option (PyBytes × Int × Bool)) × List RemoteCall :=
  match normalizeToken token with
  | none =>
      let g := b.get_stateT
      (g.1.map annotateConflict, g.2)
  | some tk =>
      match pickleLoads state with
      | some (.rdzvState rdzv_state) =>
          let participant_num := rdzv_state.participants.length
          let wait_num := rdzv_state.wait_list.length
          match b.client.set_rdzv_state b.key state tk participant_num wait_num with
          | .error exc =>
              (.error (.connectionError
                "The connection to job master has failed. See inner exception for details." exc),
               [.set b.key state tk participant_num wait_num])
          | .ok true =>
              (.ok (some (state, tk, true)),
               [.set b.key state tk participant_num wait_num])
          | .ok false =>
              let g := b.get_stateT
              (g.1.map annotateConflict,
               .set b.key state tk participant_num wait_num :: g.2)
      | _ => (.error .deserializationError, [])

/-- Result of `set_state` without the instrumentation trace. -/
def DlroverRendezvousBackend.set_state (b : DlroverRendezvousBackend)
    (state : PyBytes) (token : Option Token) :
    Except PyError (Option (PyBytes × Int × Bool)) :=
  (b.set_stateT state token).1

/-- The trace of `get_state` is always exactly one read of the backend
key. -/
theorem get_stateT_trace (b : DlroverRendezvousBackend) :
    b.get_stateT.2 = [RemoteCall.get b.key] := by
  unfold DlroverRendezvousBackend.get_stateT
  cases b.client.get_rdzv_state b.key with
  | error e => rfl
  | ok r =>
      by_cases h : r.1 = pickleDumps (.str "")
      · simp [h]
      · simp only [h, if_false]
        cases pickleLoads r.1 <;> rfl

/-- On a truthy token whose string form does not parse as an integer,
`set_state` performs a single fresh read and returns it annotated with
`succeeded = false`; no write call is issued. -/
theorem set_stateT_probe (b : DlroverRendezvousBackend) (s : PyBytes)
    (t : String) (hne : t ≠ "") (hparse : parsePyInt t = none) :
    b.set_stateT s (some (.str t)) =
      (b.get_state.map annotateConflict, [RemoteCall.get b.key]) := by
  have hnorm : normalizeToken (some (.str t)) = none := by
    simp [normalizeToken, hne, hparse]
  have htr := get_stateT_trace b
  unfold DlroverRendezvousBackend.set_stateT
  rw [hnorm, ← htr]
  rfl

/-- When the token normalizes, the blob deserializes, and the remote
conditional write answers `false`, `set_state` issues the write followed
by a fresh read and returns the read annotated with
`succeeded = false`. -/
theorem set_stateT_conflict (b : DlroverRendezvousBackend) (s : PyBytes)
    (tok : Option Token) (tk : Int) (st : RendezvousState)
    (hnorm : normalizeToken tok = some tk)
    (hload : pickleLoads s = some (.rdzvState st))
    (hset : b.client.set_rdzv_state b.key s tk
        st.participants.length st.wait_list.length = .ok false) :
    b.set_stateT s tok =
      (b.get_state.map annotateConflict,
       [RemoteCall.set b.key s tk st.participants.length st.wait_list.length,
        RemoteCall.get b.key]) := by
  have htr := get_stateT_trace b
  unfold DlroverRendezvousBackend.set_stateT
  rw [hnorm]
  simp only [hload, hset]
  rw [← htr]
  rfl

/-- When the token normalizes, the blob deserializes, and the remote
conditional write answers `true`, `set_state` issues exactly the write
call and returns the written bytes, the normalized token and `true`. -/
theorem set_stateT_success (b : DlroverRendezvousBackend) (s : PyBytes)
    (tok : Option Token) (tk : Int) (st : RendezvousState)
    (hnorm : normalizeToken tok = some tk)
    (hload : pickleLoads s = some (.rdzvState st))
    (hset : b.client.set_rdzv_state b.key s tk
        st.participants.length st.wait_list.length = .ok true) :
    b.set_stateT s tok =
      (.ok (some (s, tk, true)),
       [RemoteCall.set b.key s tk st.participants.length st.wait_list.length]) := by
  unfold DlroverRendezvousBackend.set_stateT
  rw [hnorm]
  simp only [hload, hset]

/-- When the token normalizes and the blob deserializes but the remote
conditional write fails with a transport error, `set_state` raises a
connection error wrapping the cause. -/
theorem set_stateT_transport (b : DlroverRendezvousBackend) (s : PyBytes)
    (tok : Option Token) (tk : Int) (st : RendezvousState) (e : GrpcError)
    (hnorm : normalizeToken tok = some tk)
    (hload : pickleLoads s = some (.rdzvState st))
    (hset : b.client.set_rdzv_state b.key s tk
        st.participants.length st.wait_list.length = .error e) :
    b.set_stateT s tok =
      (.error (.connectionError
        "The connection to job master has failed. See inner exception for details." e),
       [RemoteCall.set b.key s tk st.participants.length st.wait_list.length]) := by
  unfold DlroverRendezvousBackend.set_stateT
  rw [hnorm]
  simp only [hload, hset]

/-- When the remote read fails with a transport error, `get_state` raises
a connection error wrapping the cause. -/
theorem get_state_transport (b : DlroverRendezvousBackend) (e : GrpcError)
    (hget : b.client.get_rdzv_state b.key = .error e) :
    b.get_state =
      .error (.connectionError
        "The connection to job master has failed.See inner exception for details." e) := by
  unfold DlroverRendezvousBackend.get_state DlroverRendezvousBackend.get_stateT
  rw [hget]

/-- Serialized fresh rendezvous state, used in concrete scenarios. -/
def sBytes : PyBytes := pickleDumps (.rdzvState RendezvousState.init)

/-- A distinct committed blob held by the remote service in conflict
scenarios. -/
def otherBytes : PyBytes :=
  pickleDumps (.rdzvState { RendezvousState.init with round := 1 })

/-- A client whose read answers `otherBytes` with token 5 and whose
conditional write always succeeds. -/
def okClient : MasterClient :=
  { get_rdzv_state := fun _ => .ok (otherBytes, 5)
    set_rdzv_state := fun _ _ _ _ _ => .ok true }

/-- Backend over `okClient` for the session of the spec scenario. -/
def okBackend : DlroverRendezvousBackend :=
  { client := okClient, key := "ns.job-42" }

/-- A client whose conditional write always loses the race and whose
read answers the winning committed value `otherBytes` with token 5. -/
def conflictClient : MasterClient :=
  { get_rdzv_state := fun _ => .ok (otherBytes, 5)
    set_rdzv_state := fun _ _ _ _ _ => .ok false }

/-- Backend over `conflictClient`. -/
def conflictBackend : DlroverRendezvousBackend :=
  { client := conflictClient, key := "ns.job-42" }

/-- C8: a freshly constructed `RendezvousState` is empty: round 0, not
complete, not closed, no deadline, and no participants, waiting nodes or
heartbeats. -/
theorem rendezvousState_init_empty :
    RendezvousState.init.round = 0 ∧
    RendezvousState.init.complete = false ∧
    RendezvousState.init.closed = false ∧
    RendezvousState.init.deadline = none ∧
    RendezvousState.init.participants = [] ∧
    RendezvousState.init.wait_list = [] ∧
    RendezvousState.init.last_heartbeats = [] := by
  refine ⟨rfl, rfl, rfl, rfl, rfl, rfl, rfl⟩

/-- C6: constructing the backend fails with the configuration error
(realized as `ValueError`) exactly when the run identifier is empty, and
on success the backend's key is the prefix concatenated with the
identifier. -/
theorem backend_init_key_and_error (gc : MasterClient) (run_id pfx : String) :
    (run_id = "" →
      DlroverRendezvousBackend.init gc run_id pfx =
        .error (.valueError "The run id must be a non-empty string.")) ∧
    (run_id ≠ "" →
      DlroverRendezvousBackend.init gc run_id pfx =
        .ok { client := gc, key := pfx ++ run_id }) := by
  constructor
  · intro h
    simp [DlroverRendezvousBackend.init, h]
  · intro h
    simp [DlroverRendezvousBackend.init, h]

/-- Witness for C6 at concrete inputs: the empty run id is rejected and
the run id of the spec scenario yields the concatenated key. -/
theorem backend_init_key_and_error_witness :
    (DlroverRendezvousBackend.init
        { get_rdzv_state := fun _ => .error ⟨"down"⟩
          set_rdzv_state := fun _ _ _ _ _ => .error ⟨"down"⟩ } "" "ns." =
      .error (.valueError "The run id must be a non-empty string.")) ∧
    (DlroverRendezvousBackend.init
        { get_rdzv_state := fun _ => .error ⟨"down"⟩
          set_rdzv_state := fun _ _ _ _ _ => .error ⟨"down"⟩ } "job-42" "ns." =
      .ok { client :=
              { get_rdzv_state := fun _ => .error ⟨"down"⟩
                set_rdzv_state := fun _ _ _ _ _ => .error ⟨"down"⟩ }
            key := "ns.job-42" }) := by
  constructor
  · exact (backend_init_key_and_error _ "" "ns.").1 rfl
  · exact (backend_init_key_and_error _ "job-42" "ns.").2 (by decide)

/-- A client modelling the service right after a successful first
commit of `sBytes`: the write succeeds and a read reports `sBytes` under
the service-assigned token 1, as in the spec scenario. -/
def firstWriteClient : MasterClient :=
  { get_rdzv_state := fun _ => .ok (sBytes, 1)
    set_rdzv_state := fun _ _ _ _ _ => .ok true }

/-- Backend over `firstWriteClient`. -/
def firstWriteBackend : DlroverRendezvousBackend :=
  { client := firstWriteClient, key := "ns.job-42" }

/-- C1 counterexample: in the spec's own scenario (`set_state(s, None)`
on a fresh session, successful write, service token of the committed
value is 1) the code returns the triple `(s, 0, true)` carrying the
sentinel token 0 the caller side supplied, not the token 1 the service
assigned to the newly committed value. -/
theorem set_state_success_token_counterexample :
    firstWriteBackend.set_state sBytes none = .ok (some (sBytes, 0, true)) ∧
    firstWriteBackend.client.get_rdzv_state firstWriteBackend.key = .ok (sBytes, 1) ∧
    (0 : Int) ≠ 1 :=
  ⟨rfl, rfl, by decide⟩

/-- C1 (amended): when the conditional write issued by
`set_state(s, t)` succeeds, `set_state` returns `(s, t', true)` where
`t'` is the caller-supplied token normalized to an integer (the sentinel
0 when the token is absent or falsy), not a token assigned by the remote
service. -/
theorem set_state_success_returns_caller_token
    (b : DlroverRendezvousBackend) (s : PyBytes) (tok : Option Token)
    (tk : Int) (st : RendezvousState)
    (hnorm : normalizeToken tok = some tk)
    (hload : pickleLoads s = some (.rdzvState st))
    (hset : b.client.set_rdzv_state b.key s tk
        st.participants.length st.wait_list.length = .ok true) :
    b.set_state s tok = .ok (some (s, tk, true)) := by
  unfold DlroverRendezvousBackend.set_state
  rw [set_stateT_success b s tok tk st hnorm hload hset]

/-- Witness for the amended C1: a successful conditional write with
caller token 5 returns the written bytes with token 5. -/
theorem set_state_success_returns_caller_token_witness :
    okBackend.set_state sBytes (some (.int 5)) = .ok (some (sBytes, 5, true)) :=
  set_state_success_returns_caller_token okBackend sBytes (some (.int 5)) 5
    RendezvousState.init rfl rfl rfl

/-- C2 counterexample: the empty string is a token that is not parseable
as the service's integer token format (Python `int("")` raises), yet
`set_state(s, "")` does issue a remote write: the empty string is falsy,
so the code replaces it with the sentinel 0 and attempts the
unconditional first write instead of performing the fresh-read
probe. -/
theorem unparseable_token_counterexample :
    parsePyInt "" = none ∧
    Token.truthy (.str "") = false ∧
    (okBackend.set_stateT sBytes (some (.str ""))).2 =
      [RemoteCall.set "ns.job-42" sBytes 0 0 0] ∧
    okBackend.set_state sBytes (some (.str "")) = .ok (some (sBytes, 0, true)) :=
  ⟨rfl, rfl, rfl, rfl⟩

/-- C2 (amended): for every truthy (non-empty) token string that is not
parseable as the service's integer token format, `set_state` issues no
remote write at all — its only remote call is one fresh read — and it
returns that fresh `get_state` result annotated with
`succeeded = false`.  (An empty-string token is falsy and instead takes
the sentinel first-write path.) -/
theorem unparseable_token_probes_without_writing
    (b : DlroverRendezvousBackend) (s : PyBytes) (t : String)
    (hne : t ≠ "") (hparse : parsePyInt t = none) :
    b.set_state s (some (.str t)) = b.get_state.map annotateConflict ∧
    (b.set_stateT s (some (.str t))).2 = [RemoteCall.get b.key] := by
  have h := set_stateT_probe b s t hne hparse
  constructor
  · unfold DlroverRendezvousBackend.set_state
    rw [h]
  · rw [h]

/-- Witness for the amended C2: with the token string of the spec's
testable property, the call performs only a read and hands back the
pre-existing state annotated `succeeded = false`. -/
theorem unparseable_token_probes_without_writing_witness :
    okBackend.set_state sBytes (some (.str "not-an-integer")) =
      .ok (some (otherBytes, 5, false)) ∧
    (okBackend.set_stateT sBytes (some (.str "not-an-integer"))).2 =
      [RemoteCall.get "ns.job-42"] := by
  have h := unparseable_token_probes_without_writing okBackend sBytes
    "not-an-integer" (by decide) (by decide)
  exact ⟨by rw [h.1]; rfl, h.2⟩

/-- C3: when the conditional write issued by `set_state` reports failure
(the CAS lost the race), `set_state` returns the result of a fresh
`get_state` annotated with `succeeded = false`. -/
theorem set_state_conflict_returns_fresh_read
    (b : DlroverRendezvousBackend) (s : PyBytes) (tok : Option Token)
    (tk : Int) (st : RendezvousState)
    (hnorm : normalizeToken tok = some tk)
    (hload : pickleLoads s = some (.rdzvState st))
    (hset : b.client.set_rdzv_state b.key s tk
        st.participants.length st.wait_list.length = .ok false) :
    b.set_state s tok = b.get_state.map annotateConflict := by
  unfold DlroverRendezvousBackend.set_state
  rw [set_stateT_conflict b s tok tk st hnorm hload hset]

/-- Witness for C3: a losing write with token 5 returns the winning
committed value `otherBytes` annotated `succeeded = false`. -/
theorem set_state_conflict_returns_fresh_read_witness :
    conflictBackend.set_state sBytes (some (.int 5)) =
      .ok (some (otherBytes, 5, false)) := by
  rw [set_state_conflict_returns_fresh_read conflictBackend sBytes
    (some (.int 5)) 5 RendezvousState.init rfl rfl rfl]
  rfl

/-- C4: a transport failure of the remote call inside `get_state` or
inside the write of `set_state` is raised as a connection error wrapping
the underlying cause — it is never swallowed, never returned as `None`
and never returned as a `succeeded = false` result. -/
theorem transport_failure_raises_connection_error :
    (∀ (b : DlroverRendezvousBackend) (e : GrpcError),
       b.client.get_rdzv_state b.key = .error e →
       b.get_state = .error (.connectionError
         "The connection to job master has failed.See inner exception for details." e)) ∧
    (∀ (b : DlroverRendezvousBackend) (s : PyBytes) (tok : Option Token)
       (tk : Int) (st : RendezvousState) (e : GrpcError),
       normalizeToken tok = some tk →
       pickleLoads s = some (.rdzvState st) →
       b.client.set_rdzv_state b.key s tk
         st.participants.length st.wait_list.length = .error e →
       b.set_state s tok = .error (.connectionError
         "The connection to job master has failed. See inner exception for details." e)) := by
  constructor
  · intro b e hget
    exact get_state_transport b e hget
  · intro b s tok tk st e hnorm hload hset
    unfold DlroverRendezvousBackend.set_state
    rw [set_stateT_transport b s tok tk st e hnorm hload hset]

/-- A client whose every RPC fails with a transport error. -/
def downClient : MasterClient :=
  { get_rdzv_state := fun _ => .error ⟨"unavailable"⟩
    set_rdzv_state := fun _ _ _ _ _ => .error ⟨"unavailable"⟩ }

/-- Backend over `downClient`. -/
def downBackend : DlroverRendezvousBackend :=
  { client := downClient, key := "ns.job-42" }

/-- Witness for C4: against a client whose RPCs fail, `get_state` and
`set_state` both raise the connection error wrapping the cause. -/
theorem transport_failure_raises_connection_error_witness :
    downBackend.get_state = .error (.connectionError
      "The connection to job master has failed.See inner exception for details."
      ⟨"unavailable"⟩) ∧
    downBackend.set_state sBytes (some (.int 5)) = .error (.connectionError
      "The connection to job master has failed. See inner exception for details."
      ⟨"unavailable"⟩) :=
  ⟨transport_failure_raises_connection_error.1 downBackend ⟨"unavailable"⟩ rfl,
   transport_failure_raises_connection_error.2 downBackend sBytes
     (some (.int 5)) 5 RendezvousState.init ⟨"unavailable"⟩ rfl rfl rfl⟩

/-- A client whose read answers raw bytes that are not a valid pickle of
any protocol value. -/
def badBytesClient : MasterClient :=
  { get_rdzv_state := fun _ => .ok (.raw "garbage", 7)
    set_rdzv_state := fun _ _ _ _ _ => .ok true }

/-- Backend over `badBytesClient`. -/
def badBytesBackend : DlroverRendezvousBackend :=
  { client := badBytesClient, key := "ns.job-42" }

/-- C5 counterexample: when the stored value is not the empty marker but
is also not decodable (source line 137 calls `pickle.loads` on it),
`get_state` raises the deserialization failure instead of returning the
raw stored bytes together with the token. -/
theorem get_state_returns_raw_bytes_counterexample :
    badBytesBackend.client.get_rdzv_state badBytesBackend.key =
      .ok (.raw "garbage", 7) ∧
    PyBytes.raw "garbage" ≠ pickleDumps (.str "") ∧
    badBytesBackend.get_state = .error .deserializationError ∧
    badBytesBackend.get_state ≠ .ok (some (.raw "garbage", 7)) :=
  ⟨rfl, by decide, rfl, by decide⟩

/-- C5 (amended): for every value the remote read returns, `get_state`
returns `None` exactly when the stored value equals the canonical empty
marker (the pickle of the empty string); otherwise, provided the stored
bytes deserialize, it returns the raw stored bytes unchanged together
with the token the service returned (undecodable bytes raise a
deserialization failure instead). -/
theorem get_state_empty_marker_and_raw_bytes
    (b : DlroverRendezvousBackend) (bits : PyBytes) (tokenInt : Int)
    (hread : b.client.get_rdzv_state b.key = .ok (bits, tokenInt)) :
    (b.get_state = .ok none ↔ bits = pickleDumps (.str "")) ∧
    (bits ≠ pickleDumps (.str "") → ∀ v, pickleLoads bits = some v →
      b.get_state = .ok (some (bits, tokenInt))) := by
  unfold DlroverRendezvousBackend.get_state DlroverRendezvousBackend.get_stateT
  rw [hread]
  constructor
  · by_cases hm : bits = pickleDumps (.str "")
    · simp [hm]
    · simp only [hm, if_false]
      cases hl : pickleLoads bits <;> simp [hm]
  · intro hm v hl
    simp [hm, hl]

/-- Witness for the amended C5: a committed non-marker value is handed
back raw with its token, and a marker read yields `None`. -/
theorem get_state_empty_marker_and_raw_bytes_witness :
    okBackend.get_state = .ok (some (otherBytes, 5)) ∧
    (okBackend.get_state = .ok none ↔ otherBytes = pickleDumps (.str "")) :=
  ⟨(get_state_empty_marker_and_raw_bytes okBackend otherBytes 5 rfl).2
      (by decide) (.rdzvState { RendezvousState.init with round := 1 }) rfl,
   (get_state_empty_marker_and_raw_bytes okBackend otherBytes 5 rfl).1⟩

/-- C7: for every deserializable state blob and normalizable (parseable
or absent) token, `set_state` deserializes the blob before issuing the
write, and the first remote call it issues is the conditional write
carrying the unmodified raw bytes, the normalized token, the participant
count and the wait-list count of the deserialized state. -/
theorem set_state_forwards_counts
    (b : DlroverRendezvousBackend) (s : PyBytes) (tok : Option Token)
    (tk : Int) (st : RendezvousState)
    (hnorm : normalizeToken tok = some tk)
    (hload : pickleLoads s = some (.rdzvState st)) :
    (b.set_stateT s tok).2.head? =
      some (RemoteCall.set b.key s tk
        st.participants.length st.wait_list.length) := by
  unfold DlroverRendezvousBackend.set_stateT
  rw [hnorm]
  simp only [hload]
  cases hset : b.client.set_rdzv_state b.key s tk
      st.participants.length st.wait_list.length with
  | error e => rfl
  | ok v => cases v <;> rfl

/-- A node descriptor used in concrete states. -/
def node1 : NodeDesc := { addr := "worker-0", pid := 10, local_id := 0 }

/-- A second node descriptor used in concrete states. -/
def node2 : NodeDesc := { addr := "worker-1", pid := 11, local_id := 0 }

/-- A third node descriptor used in concrete states. -/
def node3 : NodeDesc := { addr := "worker-2", pid := 12, local_id := 0 }

/-- A state with two ranked participants and one waiting node. -/
def busyState : RendezvousState :=
  { RendezvousState.init with
      participants := [(node1, 0), (node2, 1)]
      wait_list := [node3] }

/-- Serialized form of `busyState`. -/
def busyBytes : PyBytes := pickleDumps (.rdzvState busyState)

/-- Witness for C7: writing a state with two participants and one
waiting node forwards the counts 2 and 1 together with the raw bytes and
the normalized token. -/
theorem set_state_forwards_counts_witness :
    (okBackend.set_stateT busyBytes (some (.str "5"))).2.head? =
      some (RemoteCall.set "ns.job-42" busyBytes 5 2 1) :=
  set_state_forwards_counts okBackend busyBytes (some (.str "5")) 5
    busyState (by decide) rfl

/-- C9: a falsy token — the integer 0 or the empty string — is treated
identically to an absent token: each normalizes to the sentinel 0 and
`set_state` issues the same remote calls and returns the same result as
with `token = None`, so a caller holding the legitimate token 0 cannot
perform a conditional write distinguishable from a first write. -/
theorem falsy_token_treated_as_absent
    (b : DlroverRendezvousBackend) (s : PyBytes) :
    b.set_stateT s (some (.int 0)) = b.set_stateT s none ∧
    b.set_stateT s (some (.str "")) = b.set_stateT s none ∧
    normalizeToken (some (.int 0)) = some 0 ∧
    normalizeToken (some (.str "")) = some 0 ∧
    normalizeToken none = some 0 :=
  ⟨rfl, rfl, rfl, rfl, rfl⟩

/-- C10: on the non-success paths of `set_state` (truthy unparseable
token, or conditional write reporting failure), when the fresh read
finds the empty marker — `get_state` returns `None` — `set_state`
returns `None` rather than a `(bytes, token, false)` triple. -/
theorem nonsuccess_empty_marker_returns_none
    (b : DlroverRendezvousBackend) (s : PyBytes) :
    (∀ t : String, t ≠ "" → parsePyInt t = none → b.get_state = .ok none →
       b.set_state s (some (.str t)) = .ok none) ∧
    (∀ (tok : Option Token) (tk : Int) (st : RendezvousState),
       normalizeToken tok = some tk →
       pickleLoads s = some (.rdzvState st) →
       b.client.set_rdzv_state b.key s tk
         st.participants.length st.wait_list.length = .ok false →
       b.get_state = .ok none →
       b.set_state s tok = .ok none) := by
  constructor
  · intro t hne hparse hget
    unfold DlroverRendezvousBackend.set_state
    rw [set_stateT_probe b s t hne hparse]
    simp [hget, Except.map, annotateConflict]
  · intro tok tk st hnorm hload hset hget
    unfold DlroverRendezvousBackend.set_state
    rw [set_stateT_conflict b s tok tk st hnorm hload hset]
    simp [hget, Except.map, annotateConflict]

/-- A client holding no recorded state (its read answers the empty
marker) whose conditional write always reports failure. -/
def emptyClient : MasterClient :=
  { get_rdzv_state := fun _ => .ok (pickleDumps (.str ""), 0)
    set_rdzv_state := fun _ _ _ _ _ => .ok false }

/-- Backend over `emptyClient`. -/
def emptyBackend : DlroverRendezvousBackend :=
  { client := emptyClient, key := "ns.job-42" }

/-- Witness for C10: against a service with no recorded state, both the
unparseable-token probe and a failed conditional write make `set_state`
return `None`. -/
theorem nonsuccess_empty_marker_returns_none_witness :
    emptyBackend.set_state sBytes (some (.str "stale-token")) = .ok none ∧
    emptyBackend.set_state sBytes (some (.int 1)) = .ok none :=
  ⟨(nonsuccess_empty_marker_returns_none emptyBackend sBytes).1 "stale-token"
      (by decide) (by decide) rfl,
   (nonsuccess_empty_marker_returns_none emptyBackend sBytes).2 (some (.int 1)) 1
      RendezvousState.init rfl rfl rfl rfl⟩

end DlroverRdzv
